import Mathlib

/-!
# Verification of the trade-dojo quantitative trading core

Shallow embedding, over exact rationals, of the futures position engine,
the spot average-cost ledger, and the signal aggregator's classification
and probability pipeline, together with proofs of the specification's
testable properties.  JavaScript `number` arithmetic is modelled by `ℚ`
(exact arithmetic); `Math.round` is modelled by `jsRound`.
-/

namespace TradeDojo

/-- JavaScript `Math.round`: rounds half toward positive infinity. -/
def jsRound (x : ℚ) : ℤ := ⌊x + 1/2⌋

-- ==================== FUTURES POSITION ENGINE ====================
-- Embedded from the futures engine module (`validateFuturesOrder`,
-- `calculateLiquidationPrice`, `calculateUnrealizedPnL`, trigger checks,
-- `checkPositionTriggers`).

inductive PositionSide where
  | LONG
  | SHORT
deriving DecidableEq, Repr

inductive PositionStatus where
  | OPEN
  | CLOSED
  | LIQUIDATED
deriving DecidableEq, Repr

inductive CloseReason where
  | USER
  | STOP_LOSS
  | TAKE_PROFIT
  | LIQUIDATION
deriving DecidableEq, Repr

/-- `FUTURES_FEE_RATE = 0.0005` -/
def FUTURES_FEE_RATE : ℚ := 5 / 10000

/-- `MAINTENANCE_MARGIN_RATE = 0.01` -/
def MAINTENANCE_MARGIN_RATE : ℚ := 1 / 100

def MIN_LEVERAGE : ℚ := 1

def MAX_LEVERAGE : ℚ := 100

/-- `MIN_MARGIN = 10` -/
def MIN_MARGIN : ℚ := 10

/-- Market snapshot of an asset (the fields the core reads). -/
structure Asset where
  id : String
  symbol : String
  name : String
  current_price : ℚ
deriving DecidableEq, Repr

/-- A futures position.  `stopLoss`/`takeProfit` are optional, as in the
source; identifier and timestamp fields are not modelled. -/
structure FuturesPosition where
  side : PositionSide
  status : PositionStatus
  leverage : ℚ
  margin : ℚ
  entryPrice : ℚ
  quantity : ℚ
  currentPrice : ℚ
  liquidationPrice : ℚ
  stopLoss : Option ℚ
  takeProfit : Option ℚ
  unrealizedPnL : ℚ
  unrealizedPnLPercentage : ℚ
  openFee : ℚ
  fundingFees : ℚ
deriving DecidableEq, Repr

/-- `calculateLiquidationPrice`:
LONG → `entryPrice * (1 - 1/leverage + MAINTENANCE_MARGIN_RATE)`,
SHORT → `entryPrice * (1 + 1/leverage - MAINTENANCE_MARGIN_RATE)`. -/
def calculateLiquidationPrice (side : PositionSide) (entryPrice leverage : ℚ) : ℚ :=
  match side with
  | .LONG => entryPrice * (1 - 1 / leverage + MAINTENANCE_MARGIN_RATE)
  | .SHORT => entryPrice * (1 + 1 / leverage - MAINTENANCE_MARGIN_RATE)

/-- `calculateUnrealizedPnL`: returns `(pnl, pnlPercentage)`. -/
def calculateUnrealizedPnL (position : FuturesPosition) (currentPrice : ℚ) : ℚ × ℚ :=
  let pnl : ℚ :=
    match position.side with
    | .LONG => (currentPrice - position.entryPrice) * position.quantity
    | .SHORT => (position.entryPrice - currentPrice) * position.quantity
  (pnl, pnl / position.margin * 100)

/-- `shouldLiquidate`: LONG liquidates when price has fallen to the
liquidation price, SHORT when it has risen to it. -/
def shouldLiquidate (position : FuturesPosition) : Bool :=
  match position.side with
  | .LONG => decide (position.currentPrice ≤ position.liquidationPrice)
  | .SHORT => decide (position.currentPrice ≥ position.liquidationPrice)

/-- `shouldTriggerStopLoss`.  The source guard `if (!position.stopLoss)`
treats both an absent stop-loss and a stop-loss of `0` (JS falsy) as "no
stop loss". -/
def shouldTriggerStopLoss (position : FuturesPosition) : Bool :=
  match position.stopLoss with
  | none => false
  | some sl =>
    if sl = 0 then false
    else
      match position.side with
      | .LONG => decide (position.currentPrice ≤ sl)
      | .SHORT => decide (position.currentPrice ≥ sl)

/-- `shouldTriggerTakeProfit`, with the same JS-falsy guard. -/
def shouldTriggerTakeProfit (position : FuturesPosition) : Bool :=
  match position.takeProfit with
  | none => false
  | some tp =>
    if tp = 0 then false
    else
      match position.side with
      | .LONG => decide (position.currentPrice ≥ tp)
      | .SHORT => decide (position.currentPrice ≤ tp)

/-- `checkPositionTriggers`: walks the position list; a non-OPEN position
is kept unchanged; an OPEN position is scheduled for closing with the
first matching reason in the strict order liquidation → stop-loss →
take-profit, or kept open when no trigger fires. -/
def checkPositionTriggers :
    List FuturesPosition →
      List (FuturesPosition × CloseReason) × List FuturesPosition
  | [] => ([], [])
  | position :: rest =>
    let tail := checkPositionTriggers rest
    if position.status ≠ PositionStatus.OPEN then
      (tail.1, position :: tail.2)
    else if shouldLiquidate position then
      ((position, CloseReason.LIQUIDATION) :: tail.1, tail.2)
    else if shouldTriggerStopLoss position then
      ((position, CloseReason.STOP_LOSS) :: tail.1, tail.2)
    else if shouldTriggerTakeProfit position then
      ((position, CloseReason.TAKE_PROFIT) :: tail.1, tail.2)
    else
      (tail.1, position :: tail.2)

/-- Futures order form data. -/
structure FuturesFormData where
  margin : ℚ
  leverage : ℚ
  side : PositionSide
  stopLoss : Option ℚ := none
  takeProfit : Option ℚ := none
deriving DecidableEq, Repr

structure FuturesValidationResult where
  valid : Bool
  error : Option String := none
  warnings : Option (List String) := none
  liquidationPrice : Option ℚ := none
  maxLoss : Option ℚ := none
deriving DecidableEq, Repr

/-- The leverage-tier warnings pushed by `validateFuturesOrder`. -/
def leverageWarnings (leverage : ℚ) : List String :=
  if leverage ≥ 50 then
    ["⚠️ Leverage muy alto (50x+). Riesgo de liquidación extremo."]
  else if leverage ≥ 20 then
    ["⚠️ Leverage alto (20x+). Posición muy riesgosa."]
  else if leverage ≥ 10 then
    ["💡 Leverage moderado. Gestiona bien tu riesgo."]
  else []

/-- The success payload of `validateFuturesOrder`: `warnings` only when
non-empty, plus the computed liquidation price and the maximum loss
(the whole margin). -/
def futuresValidResult (margin liquidationPrice : ℚ) (warnings : List String) :
    FuturesValidationResult :=
  { valid := true
    warnings := if warnings.length > 0 then some warnings else none
    liquidationPrice := some liquidationPrice
    maxLoss := some margin }

/-- Step 7 of `validateFuturesOrder` (take-profit side check), reached
after every earlier check has passed. -/
def validateFuturesTakeProfit (fd : FuturesFormData) (asset : Asset)
    (liquidationPrice : ℚ) (warnings : List String) : FuturesValidationResult :=
  match fd.takeProfit with
  | some tp =>
    if fd.side = PositionSide.LONG ∧ tp ≤ asset.current_price then
      { valid := false
        error := some "Take Profit debe estar ARRIBA del precio de entrada en posiciones LONG" }
    else if fd.side = PositionSide.SHORT ∧ tp ≥ asset.current_price then
      { valid := false
        error := some "Take Profit debe estar DEBAJO del precio de entrada en posiciones SHORT" }
    else futuresValidResult fd.margin liquidationPrice warnings
  | none => futuresValidResult fd.margin liquidationPrice warnings

/-- `validateFuturesOrder` (dynamic parts of the error strings elided).
Checks, in order: minimum margin, available balance, leverage range,
stop-loss side, take-profit side.  A stop-loss beyond the liquidation
price only adds a warning. -/
def validateFuturesOrder (fd : FuturesFormData) (asset : Asset)
    (availableBalance : ℚ) : FuturesValidationResult :=
  if fd.margin < MIN_MARGIN then
    { valid := false, error := some "Margin mínimo es $10" }
  else if fd.margin > availableBalance then
    { valid := false, error := some "Balance insuficiente. Disponible:" }
  else if fd.leverage < MIN_LEVERAGE ∨ fd.leverage > MAX_LEVERAGE then
    { valid := false, error := some "Leverage debe estar entre 1x y 100x" }
  else
    let liquidationPrice :=
      calculateLiquidationPrice fd.side asset.current_price fd.leverage
    let warnings1 := leverageWarnings fd.leverage
    match fd.stopLoss with
    | some sl =>
      if fd.side = PositionSide.LONG ∧ sl ≥ asset.current_price then
        { valid := false
          error := some "Stop Loss debe estar DEBAJO del precio de entrada en posiciones LONG" }
      else if fd.side = PositionSide.SHORT ∧ sl ≤ asset.current_price then
        { valid := false
          error := some "Stop Loss debe estar ARRIBA del precio de entrada en posiciones SHORT" }
      else
        let warnings2 := warnings1 ++
          (if |sl - liquidationPrice| / asset.current_price < 5 / 100 then
            ["⚠️ Stop Loss muy cercano al precio de liquidación."]
          else [])
        validateFuturesTakeProfit fd asset liquidationPrice warnings2
    | none =>
      validateFuturesTakeProfit fd asset liquidationPrice
        (warnings1 ++ ["💡 Considera añadir un Stop Loss para limitar pérdidas."])

-- ==================== SIGNAL AGGREGATOR ====================
-- Embedded from `generateAdvancedTradingSignals`.  The indicator
-- computations it calls (`calculateRSI`, `calculateEMA`, `calculateMACD`,
-- `analyzeVolume`, `calculateADX`, `detectCandlePatterns`, …) enter the
-- aggregation through an `IndicatorReadings` record; the length gate,
-- vote weighting, classification, confidence and scenario-probability
-- pipeline are translated from the source, and the theorems below hold
-- for every possible reading, hence in particular for the computed ones.

/-- OHLC candle (`open` is a Lean keyword, hence `open_`). -/
structure Candle where
  time : ℤ
  open_ : ℚ
  high : ℚ
  low : ℚ
  close : ℚ
deriving DecidableEq, Repr

inductive SignalType where
  | strongBuy
  | buy
  | neutral
  | sell
  | strongSell
deriving DecidableEq, Repr

inductive PatternSignal where
  | bullish
  | bearish
  | neutral
deriving DecidableEq, Repr

structure ADXReading where
  adx : ℚ
  diPlus : ℚ
  diMinus : ℚ
deriving DecidableEq, Repr

/-- The indicator outputs consumed by the vote/probability pipeline. -/
structure IndicatorReadings where
  rsi : ℚ
  ema20 : ℚ
  ema50 : ℚ
  ema200 : ℚ
  macd : ℚ
  macdSignal : ℚ
  macdHistogram : ℚ
  volIsHigh : Bool
  atr : ℚ
  adx : ADXReading
  patternSignal : PatternSignal
deriving DecidableEq, Repr

/-- Scenario probabilities; integral by construction
(`Math.round` outputs, consolidation takes the remainder). -/
structure Probabilities where
  bullishContinuation : ℤ
  bearishContinuation : ℤ
  reversal : ℤ
  consolidation : ℤ
deriving DecidableEq, Repr

/-- The modelled slice of the advanced signal: classification,
confidence, recommendation text and scenario probabilities. -/
structure TradingSignal where
  type : SignalType
  confidence : ℤ
  recommendation : String
  probabilities : Probabilities
deriving DecidableEq, Repr

/-- The `(buyVotes, sellVotes)` accumulators of
`generateAdvancedTradingSignals`: RSI (weight 3), EMA 20/50 (weight 4),
MACD (weight 3), volume (weight 2), ADX (weight 2), candle pattern
(weight 2).  The source increments `buyVotes` in the price-below-EMA20
branch even though it labels it a sell signal; this is kept as-is. -/
def advancedVotes (currentPrice priceChange : ℚ) (r : IndicatorReadings) :
    ℕ × ℕ :=
  let v1 : ℕ × ℕ :=
    if r.rsi < 30 then (3, 0)
    else if r.rsi > 70 then (0, 3)
    else if r.rsi < 45 then (1, 0)
    else if r.rsi > 55 then (0, 1)
    else (0, 0)
  let v2 : ℕ × ℕ :=
    if r.ema20 > r.ema50 ∧ currentPrice > r.ema20 then (4, 0)
    else if r.ema20 < r.ema50 ∧ currentPrice < r.ema20 then (0, 4)
    else if currentPrice > r.ema20 then (2, 0)
    else if currentPrice < r.ema20 then (2, 0)
    else (0, 0)
  let v3 : ℕ × ℕ :=
    if r.macdHistogram > 0 ∧ r.macd > r.macdSignal then (3, 0)
    else if r.macdHistogram < 0 ∧ r.macd < r.macdSignal then (0, 3)
    else (0, 0)
  let v4 : ℕ × ℕ :=
    if r.volIsHigh = true ∧ priceChange > 0 then (2, 0)
    else if r.volIsHigh = true ∧ priceChange < 0 then (0, 2)
    else (0, 0)
  let v5 : ℕ × ℕ :=
    if r.adx.adx > 40 ∧ r.adx.diPlus > r.adx.diMinus then (2, 0)
    else if r.adx.adx > 40 ∧ r.adx.diPlus < r.adx.diMinus then (0, 2)
    else if r.adx.adx > 25 then
      (if r.adx.diPlus > r.adx.diMinus then (1, 0) else (0, 1))
    else (0, 0)
  let v6 : ℕ × ℕ :=
    match r.patternSignal with
    | .bullish => (2, 0)
    | .bearish => (0, 2)
    | .neutral => (0, 0)
  (v1.1 + v2.1 + v3.1 + v4.1 + v5.1 + v6.1,
   v1.2 + v2.2 + v3.2 + v4.2 + v5.2 + v6.2)

/-- Net-vote classification: ≥ 6 strong buy, ≥ 3 buy, ≤ −6 strong sell,
≤ −3 sell, otherwise neutral. -/
def classifySignal (buyVotes sellVotes : ℕ) : SignalType :=
  let netVotes : ℤ := (buyVotes : ℤ) - (sellVotes : ℤ)
  if netVotes ≥ 6 then .strongBuy
  else if netVotes ≥ 3 then .buy
  else if netVotes ≤ -6 then .strongSell
  else if netVotes ≤ -3 then .sell
  else .neutral

/-- `confidence = round(|netVotes| / totalVotes * 100)`, `0` with no
votes. -/
def advancedConfidence (buyVotes sellVotes : ℕ) : ℤ :=
  let totalVotes := buyVotes + sellVotes
  let netVotes : ℤ := (buyVotes : ℤ) - (sellVotes : ℤ)
  if totalVotes > 0 then jsRound (|(netVotes : ℚ)| / (totalVotes : ℚ) * 100)
  else 0

/-- Static prefix of the recommendation text per classification (the
dynamic vote counts of the source strings are elided). -/
def recommendationFor (t : SignalType) : String :=
  match t with
  | .strongBuy => "COMPRA FUERTE 🟢🟢🟢"
  | .buy => "COMPRA 🟢"
  | .neutral => "NEUTRAL ⚪"
  | .sell => "VENTA 🔴"
  | .strongSell => "VENTA FUERTE 🔴🔴🔴"

/-- Base scenario-probability table, keyed by classification
(bullish continuation, bearish continuation, reversal, consolidation). -/
def baseProbabilities (t : SignalType) : ℚ × ℚ × ℚ × ℚ :=
  match t with
  | .strongBuy => (60, 10, 10, 20)
  | .buy => (45, 20, 15, 20)
  | .strongSell => (10, 60, 10, 20)
  | .sell => (20, 45, 15, 20)
  | .neutral => (25, 25, 20, 30)

/-- ADX adjustment of the base table: a strong trend (> 40) shifts 10
toward the dominant direction taking 5 each from the opposite direction
and consolidation; a weak trend (< 20) shifts 15 toward consolidation
taking 7 from bullish and 8 from bearish. -/
def adjustProbabilities (adxR : ADXReading) (b be rv c : ℚ) : ℚ × ℚ × ℚ × ℚ :=
  if adxR.adx > 40 then
    if adxR.diPlus > adxR.diMinus then (b + 10, be - 5, rv, c - 5)
    else (b - 5, be + 10, rv, c - 5)
  else if adxR.adx < 20 then (b - 7, be - 8, rv, c + 15)
  else (b, be, rv, c)

/-- Renormalisation to 100: the three directional buckets are rounded
percentages of the adjusted total, and consolidation absorbs the
remainder `100 - bullish - bearish - reversal`. -/
def advancedProbabilities (t : SignalType) (adxR : ADXReading) : Probabilities :=
  let base := baseProbabilities t
  let adj := adjustProbabilities adxR base.1 base.2.1 base.2.2.1 base.2.2.2
  let total := adj.1 + adj.2.1 + adj.2.2.1 + adj.2.2.2
  let bullishContinuation := jsRound (adj.1 / total * 100)
  let bearishContinuation := jsRound (adj.2.1 / total * 100)
  let reversal := jsRound (adj.2.2.1 / total * 100)
  { bullishContinuation := bullishContinuation
    bearishContinuation := bearishContinuation
    reversal := reversal
    consolidation := 100 - bullishContinuation - bearishContinuation - reversal }

/-- The fixed signal returned below the 50-candle gate: neutral,
confidence 0, explicit insufficient-data message, 33/33/17/17. -/
def insufficientDataSignal : TradingSignal :=
  { type := .neutral
    confidence := 0
    recommendation :=
      "Datos insuficientes para análisis completo. Se requieren al menos 50 velas."
    probabilities :=
      { bullishContinuation := 33
        bearishContinuation := 33
        reversal := 17
        consolidation := 17 } }

/-- `generateAdvancedTradingSignals`, restricted to the verified fields:
below 50 candles the fixed insufficient-data signal is returned;
otherwise votes, classification, confidence, recommendation and
probabilities are computed from the indicator readings. -/
def generateAdvancedTradingSignals (candleData : List Candle)
    (volumeData : List ℚ) (r : IndicatorReadings) : TradingSignal :=
  if candleData.length < 50 then insufficientDataSignal
  else
    let prices := candleData.map Candle.close
    let currentPrice := prices.getD (prices.length - 1) 0
    let prevPrice := prices.getD (prices.length - 2) 0
    let priceChange := (currentPrice - prevPrice) / prevPrice * 100
    let votes := advancedVotes currentPrice priceChange r
    let t := classifySignal votes.1 votes.2
    { type := t
      confidence := advancedConfidence votes.1 votes.2
      recommendation := recommendationFor t
      probabilities := advancedProbabilities t r.adx }

/-- Neutral indicator readings used by concrete witnesses. -/
def sampleReadings : IndicatorReadings :=
  { rsi := 50
    ema20 := 0
    ema50 := 0
    ema200 := 0
    macd := 0
    macdSignal := 0
    macdHistogram := 0
    volIsHigh := false
    atr := 0
    adx := { adx := 0, diPlus := 0, diMinus := 0 }
    patternSignal := .neutral }

-- ==================== C1, C2, C8 ====================

/-- A sample open LONG position used by concrete witnesses: entry 50000,
leverage 10, margin 1000, stop-loss 46000, price now 45000 (below both
the liquidation price 45500 and the stop). -/
def samplePosition : FuturesPosition :=
  { side := .LONG
    status := .OPEN
    leverage := 10
    margin := 1000
    entryPrice := 50000
    quantity := 1/5
    currentPrice := 45000
    liquidationPrice := 45500
    stopLoss := some 46000
    takeProfit := none
    unrealizedPnL := 0
    unrealizedPnLPercentage := 0
    openFee := 5
    fundingFees := 0 }

-- ==================== SPOT LEDGER ENGINE ====================
-- Embedded from the trading engine module (`validateTrade`,
-- `executeTrade`, `calculatePortfolioValue`).  The trade-history record
-- (random id, timestamp) does not influence portfolio state and is not
-- modelled.

inductive TradeType where
  | buy
  | sell
deriving DecidableEq, Repr

/-- `TRADING_FEE_PERCENTAGE = 0.1` (per cent; the fee is
`total * TRADING_FEE_PERCENTAGE / 100`). -/
def TRADING_FEE_PERCENTAGE : ℚ := 1 / 10

def INITIAL_BALANCE : ℚ := 10000

structure Holding where
  asset : String
  assetSymbol : String
  assetName : String
  quantity : ℚ
  averageBuyPrice : ℚ
  totalInvested : ℚ
  currentPrice : ℚ
  currentValue : ℚ
  pnl : ℚ
  pnlPercentage : ℚ
deriving DecidableEq, Repr

/-- Portfolio state (`lastUpdated` wall-clock field not modelled). -/
structure Portfolio where
  balance : ℚ
  holdings : List Holding
  totalInvested : ℚ
  totalValue : ℚ
  totalPnL : ℚ
  totalPnLPercentage : ℚ
deriving DecidableEq, Repr

structure TradeValidationResult where
  valid : Bool
  error : Option String := none
  warnings : List String := []
deriving DecidableEq, Repr

/-- `calculatePortfolioValue`. -/
def calculatePortfolioValue (balance : ℚ) (holdings : List Holding) : Portfolio :=
  let totalInvested := (holdings.map Holding.totalInvested).sum
  let holdingsValue := (holdings.map Holding.currentValue).sum
  let totalValue := balance + holdingsValue
  let totalPnL := holdingsValue - totalInvested
  { balance := balance
    holdings := holdings
    totalInvested := totalInvested
    totalValue := totalValue
    totalPnL := totalPnL
    totalPnLPercentage :=
      if totalInvested > 0 then totalPnL / totalInvested * 100 else 0 }

/-- `validateTrade` (dynamic parts of the error strings are elided). -/
def validateTrade (type : TradeType) (asset : Asset) (quantity price : ℚ)
    (portfolio : Portfolio) : TradeValidationResult :=
  if quantity ≤ 0 then
    { valid := false, error := some "La cantidad debe ser mayor a 0" }
  else if price ≤ 0 then
    { valid := false, error := some "Precio inválido" }
  else
    match type with
    | .buy =>
      let totalCost := quantity * price
      let fee := totalCost * TRADING_FEE_PERCENTAGE / 100
      let totalWithFee := totalCost + fee
      if totalWithFee > portfolio.balance then
        { valid := false, error := some "Balance insuficiente." }
      else
        { valid := true
          warnings :=
            if totalWithFee > portfolio.balance * (1/2) then
              ["⚠️ Estás usando más del 50% de tu balance en este trade. Considera diversificar."]
            else [] }
    | .sell =>
      match portfolio.holdings.find? (fun h => h.asset == asset.id) with
      | none =>
        { valid := false, error := some "No tienes este asset en tu portfolio para vender" }
      | some holding =>
        if quantity > holding.quantity then
          { valid := false, error := some "Cantidad insuficiente." }
        else
          { valid := true }

/-- The buy branch of `executeTrade` on the holdings list: the first
holding with a matching asset id gets the fee-inclusive cost added to
`totalInvested` and its average recomputed; with no match a new holding
is appended with `averageBuyPrice = price` and `totalInvested = netTotal`. -/
def buyUpdateHoldings (a : Asset) (quantity price netTotal : ℚ) :
    List Holding → List Holding
  | [] =>
    [{ asset := a.id
       assetSymbol := a.symbol
       assetName := a.name
       quantity := quantity
       averageBuyPrice := price
       totalInvested := netTotal
       currentPrice := price
       currentValue := quantity * price
       pnl := 0
       pnlPercentage := 0 }]
  | existing :: rest =>
    if existing.asset = a.id then
      let newQuantity := existing.quantity + quantity
      let newTotalInvested := existing.totalInvested + netTotal
      { existing with
          quantity := newQuantity
          averageBuyPrice := newTotalInvested / newQuantity
          totalInvested := newTotalInvested
          currentPrice := price
          currentValue := newQuantity * price
          pnl := newQuantity * price - newTotalInvested
          pnlPercentage :=
            (newQuantity * price - newTotalInvested) / newTotalInvested * 100 } :: rest
    else
      existing :: buyUpdateHoldings a quantity price netTotal rest

/-- The sell branch of `executeTrade` on the holdings list: the first
matching holding is removed when the remaining quantity is `≤ 1e-8`,
otherwise reduced proportionally (`averageBuyPrice` and `currentPrice`
untouched). -/
def sellUpdateHoldings (a : Asset) (quantity price : ℚ) :
    List Holding → List Holding
  | [] => []
  | existing :: rest =>
    if existing.asset = a.id then
      let newQuantity := existing.quantity - quantity
      if newQuantity ≤ 1 / 100000000 then
        rest
      else
        let proportionSold := quantity / existing.quantity
        let investedSold := existing.totalInvested * proportionSold
        { existing with
            quantity := newQuantity
            totalInvested := existing.totalInvested - investedSold
            currentValue := newQuantity * price
            pnl := newQuantity * price - (existing.totalInvested - investedSold)
            pnlPercentage :=
              (newQuantity * price - (existing.totalInvested - investedSold))
                / (existing.totalInvested - investedSold) * 100 } :: rest
    else
      existing :: sellUpdateHoldings a quantity price rest

/-- `executeTrade`: buy debits `total + fee` and merges the holding, sell
credits `total - fee` and reduces the holding; the portfolio aggregates
are recomputed by `calculatePortfolioValue`. -/
def executeTrade (type : TradeType) (asset : Asset) (quantity : ℚ)
    (currentPortfolio : Portfolio) : Portfolio :=
  let price := asset.current_price
  let total := quantity * price
  let fee := total * TRADING_FEE_PERCENTAGE / 100
  match type with
  | .buy =>
    let netTotal := total + fee
    calculatePortfolioValue (currentPortfolio.balance - netTotal)
      (buyUpdateHoldings asset quantity price netTotal currentPortfolio.holdings)
  | .sell =>
    let netTotal := total - fee
    calculatePortfolioValue (currentPortfolio.balance + netTotal)
      (sellUpdateHoldings asset quantity price currentPortfolio.holdings)

/-- Iterated `executeTrade` over a list of `(type, asset, quantity)`
orders, oldest first. -/
def executeAll (trades : List (TradeType × Asset × ℚ)) (p : Portfolio) : Portfolio :=
  trades.foldl (fun acc t => executeTrade t.1 t.2.1 t.2.2 acc) p

/-- A fresh portfolio: initial cash, no holdings. -/
def emptyPortfolio : Portfolio :=
  { balance := INITIAL_BALANCE
    holdings := []
    totalInvested := 0
    totalValue := INITIAL_BALANCE
    totalPnL := 0
    totalPnLPercentage := 0 }

/-- A portfolio with no holdings and a balance (1,000,000) sufficient to
fund both fee-inclusive buys of the two-buy scenario
(50,050 + 60,060 = 110,110). -/
def richPortfolio : Portfolio :=
  { balance := 1000000
    holdings := []
    totalInvested := 0
    totalValue := 1000000
    totalPnL := 0
    totalPnLPercentage := 0 }

def btcAt50000 : Asset := { id := "bitcoin", symbol := "BTC", name := "Bitcoin", current_price := 50000 }

def btcAt60000 : Asset := { id := "bitcoin", symbol := "BTC", name := "Bitcoin", current_price := 60000 }

/-- A concrete holding used by the C5 witness: 2 units at average 10. -/
def sampleHolding : Holding :=
  { asset := "bitcoin"
    assetSymbol := "BTC"
    assetName := "Bitcoin"
    quantity := 2
    averageBuyPrice := 10
    totalInvested := 20
    currentPrice := 10
    currentValue := 20
    pnl := 0
    pnlPercentage := 0 }

def samplePortfolio : Portfolio :=
  { balance := 100
    holdings := [sampleHolding]
    totalInvested := 20
    totalValue := 120
    totalPnL := 0
    totalPnLPercentage := 0 }

def btcAt30 : Asset := { id := "bitcoin", symbol := "BTC", name := "Bitcoin", current_price := 30 }

-- ==================== C4 ====================

/-- The cost-basis invariant `executeTrade` actually maintains:
positive quantity, nonnegative invested capital, and
`averageBuyPrice * quantity ≤ totalInvested ≤
 averageBuyPrice * quantity * (1 + feeRate)`.
A freshly created holding sits at the upper bound (its `totalInvested`
includes the 0.1% buy fee while `averageBuyPrice` is the raw price); a
repeated buy recomputes the average so equality holds at the lower
bound, and sells scale `totalInvested` and `quantity` by the same
factor. -/
def HoldingInv (h : Holding) : Prop :=
  0 < h.quantity ∧ 0 ≤ h.totalInvested ∧
    h.averageBuyPrice * h.quantity ≤ h.totalInvested ∧
    h.totalInvested ≤ h.averageBuyPrice * h.quantity * (1 + TRADING_FEE_PERCENTAGE / 100)

/-- The holding created by the single buy used in the C4 witness and
counterexample: 1 unit of BTC at price 50000 with the 0.1% fee folded
into `totalInvested`. -/
def freshHolding : Holding :=
  { asset := "bitcoin"
    assetSymbol := "BTC"
    assetName := "Bitcoin"
    quantity := 1
    averageBuyPrice := 50000
    totalInvested := 50050
    currentPrice := 50000
    currentValue := 50000
    pnl := 0
    pnlPercentage := 0 }

-- ==================== C6 ====================

/-- A LONG order whose stop-loss (40000) sits below the liquidation
price (45500): margin, balance and leverage are all in range. -/
def fdStopBelowLiquidation : FuturesFormData :=
  { margin := 100
    leverage := 10
    side := .LONG
    stopLoss := some 40000
    takeProfit := none }

-- ==================== THEOREMS ====================

/-- C1: an OPEN position past both its liquidation price and its
stop-loss yields exactly one trigger, with reason LIQUIDATION (never
STOP_LOSS); and on any list every position contributes exactly one
outcome (one close entry or one kept entry), so at most one trigger
fires per position per call. -/
theorem checkPositionTriggers_liquidation_first
    (p : FuturesPosition)
    (hopen : p.status = PositionStatus.OPEN)
    (hliq : shouldLiquidate p = true)
    (hsl : shouldTriggerStopLoss p = true) :
    checkPositionTriggers [p] = ([(p, CloseReason.LIQUIDATION)], []) ∧
      ∀ ps : List FuturesPosition,
        (checkPositionTriggers ps).1.length + (checkPositionTriggers ps).2.length
          = ps.length := by
  constructor
  · simp [checkPositionTriggers, hopen, hliq]
  · intro ps
    induction ps with
    | nil => rfl
    | cons q rest ih =>
      by_cases hq : q.status = PositionStatus.OPEN <;>
        by_cases h1 : shouldLiquidate q <;>
          by_cases h2 : shouldTriggerStopLoss q <;>
            by_cases h3 : shouldTriggerTakeProfit q <;>
              simp [checkPositionTriggers, hq, h1, h2, h3] <;> omega

/-- Witness for C1 at the sample position. -/
theorem checkPositionTriggers_liquidation_first_witness :
    checkPositionTriggers [samplePosition]
      = ([(samplePosition, CloseReason.LIQUIDATION)], []) :=
  (checkPositionTriggers_liquidation_first samplePosition rfl
    (by norm_num [shouldLiquidate, samplePosition])
    (by norm_num [shouldTriggerStopLoss, samplePosition])).1

/-- C2: the liquidation-price formula.  For entry price `> 0` and
leverage in `[1, 100]`, LONG gives `entry * (1 - 1/L + 0.01)`, SHORT
gives `entry * (1 + 1/L - 0.01)`, the relative offset
`|liq/entry - 1|` is exactly `1/L - 0.01` for both sides, and a LONG at
entry 50000 with leverage 10 liquidates at 45500. -/
theorem calculateLiquidationPrice_spec
    (side : PositionSide) (entryPrice leverage : ℚ)
    (hp : 0 < entryPrice) (h1 : 1 ≤ leverage) (h100 : leverage ≤ 100) :
    calculateLiquidationPrice PositionSide.LONG entryPrice leverage
        = entryPrice * (1 - 1 / leverage + 1 / 100) ∧
      calculateLiquidationPrice PositionSide.SHORT entryPrice leverage
        = entryPrice * (1 + 1 / leverage - 1 / 100) ∧
      |calculateLiquidationPrice side entryPrice leverage / entryPrice - 1|
        = 1 / leverage - 1 / 100 ∧
      calculateLiquidationPrice PositionSide.LONG 50000 10 = 45500 := by
  have hl0 : (0 : ℚ) < leverage := lt_of_lt_of_le one_pos h1
  have hinv : 1 / 100 ≤ 1 / leverage := by
    apply one_div_le_one_div_of_le hl0 h100
  refine ⟨rfl, rfl, ?_, by norm_num [calculateLiquidationPrice, MAINTENANCE_MARGIN_RATE]⟩
  have hne : entryPrice ≠ 0 := ne_of_gt hp
  cases side with
  | LONG =>
    have : calculateLiquidationPrice PositionSide.LONG entryPrice leverage / entryPrice - 1
        = -(1 / leverage - 1 / 100) := by
      unfold calculateLiquidationPrice MAINTENANCE_MARGIN_RATE
      field_simp
      ring
    rw [this, abs_neg, abs_of_nonneg (by linarith)]
  | SHORT =>
    have : calculateLiquidationPrice PositionSide.SHORT entryPrice leverage / entryPrice - 1
        = 1 / leverage - 1 / 100 := by
      unfold calculateLiquidationPrice MAINTENANCE_MARGIN_RATE
      field_simp
      ring
    rw [this, abs_of_nonneg (by linarith)]

/-- Witness for C2: LONG, entry 50000, leverage 10. -/
theorem calculateLiquidationPrice_spec_witness :
    |calculateLiquidationPrice PositionSide.LONG 50000 10 / 50000 - 1|
      = 1 / 10 - 1 / 100 :=
  (calculateLiquidationPrice_spec PositionSide.LONG 50000 10
    (by norm_num) (by norm_num) (by norm_num)).2.2.1

/-- C8: mark-to-market PnL is `(current - entry) * quantity` for LONG and
`(entry - current) * quantity` for SHORT, the percentage is
`pnl / margin * 100`, and — all other fields fixed — LONG PnL is strictly
increasing and SHORT PnL strictly decreasing in the current price when
`quantity > 0`. -/
theorem calculateUnrealizedPnL_spec
    (p : FuturesPosition) (hq : 0 < p.quantity) :
    (∀ c : ℚ, p.side = PositionSide.LONG →
        (calculateUnrealizedPnL p c).1 = (c - p.entryPrice) * p.quantity) ∧
      (∀ c : ℚ, p.side = PositionSide.SHORT →
        (calculateUnrealizedPnL p c).1 = (p.entryPrice - c) * p.quantity) ∧
      (∀ c : ℚ, (calculateUnrealizedPnL p c).2
        = (calculateUnrealizedPnL p c).1 / p.margin * 100) ∧
      (∀ c₁ c₂ : ℚ, c₁ < c₂ → p.side = PositionSide.LONG →
        (calculateUnrealizedPnL p c₁).1 < (calculateUnrealizedPnL p c₂).1) ∧
      (∀ c₁ c₂ : ℚ, c₁ < c₂ → p.side = PositionSide.SHORT →
        (calculateUnrealizedPnL p c₂).1 < (calculateUnrealizedPnL p c₁).1) := by
  refine ⟨?_, ?_, ?_, ?_, ?_⟩
  · intro c hside; simp [calculateUnrealizedPnL, hside]
  · intro c hside; simp [calculateUnrealizedPnL, hside]
  · intro c; cases h : p.side <;> simp [calculateUnrealizedPnL, h]
  · intro c₁ c₂ hc hside
    simp only [calculateUnrealizedPnL, hside]
    have := sub_lt_sub_right hc p.entryPrice
    exact mul_lt_mul_of_pos_right this hq
  · intro c₁ c₂ hc hside
    simp only [calculateUnrealizedPnL, hside]
    have := sub_lt_sub_left hc p.entryPrice
    exact mul_lt_mul_of_pos_right this hq

/-- Witness for C8 at the sample position (quantity 0.2): PnL at 55000 is
1000 and PnL is larger at 55000 than at 50000. -/
theorem calculateUnrealizedPnL_spec_witness :
    (calculateUnrealizedPnL samplePosition 55000).1
        = (55000 - samplePosition.entryPrice) * samplePosition.quantity ∧
      (calculateUnrealizedPnL samplePosition 50000).1
        < (calculateUnrealizedPnL samplePosition 55000).1 :=
  ⟨(calculateUnrealizedPnL_spec samplePosition (by norm_num [samplePosition])).1
      55000 rfl,
   (calculateUnrealizedPnL_spec samplePosition (by norm_num [samplePosition])).2.2.2.1
      50000 55000 (by norm_num) rfl⟩

-- ==================== C3 ====================

/-- C3 counterexample: buying 1 @ 50000 then 1 @ 60000 of the same asset,
starting from a portfolio with no holding of it and sufficient balance
(1,000,000 covers both fee-inclusive costs, and both buys pass
`validateTrade`), yields `averageBuyPrice = 55055`, not `55000`:
`totalInvested` accumulates the fee-inclusive cost `(50050 + 60060)`,
and the recomputed average is `110110 / 2`. -/
theorem spot_two_buys_average_not_55000 :
    (validateTrade TradeType.buy btcAt50000 1 btcAt50000.current_price
        richPortfolio).valid = true ∧
      (validateTrade TradeType.buy btcAt60000 1 btcAt60000.current_price
        (executeTrade TradeType.buy btcAt50000 1 richPortfolio)).valid = true ∧
      ((executeTrade TradeType.buy btcAt60000 1
          (executeTrade TradeType.buy btcAt50000 1 richPortfolio)).holdings.map
        (fun h => (h.quantity, h.averageBuyPrice)))
        = [(2, 55055)] ∧ (55055 : ℚ) ≠ 55000 := by
  refine ⟨?_, ?_, ?_, by norm_num⟩ <;>
    norm_num [validateTrade, executeTrade, buyUpdateHoldings,
      calculatePortfolioValue, richPortfolio, btcAt50000, btcAt60000,
      TRADING_FEE_PERCENTAGE]

/-- C3 amended: from a portfolio with no holding of the asset and
sufficient balance, the two buys yield quantity exactly 2 and
`averageBuyPrice` exactly 55055 = (1·50000·1.001 + 1·60000·1.001) / 2,
the fee-inclusive average cost. -/
theorem spot_two_buys_average_55055 :
    ((executeTrade TradeType.buy btcAt60000 1
        (executeTrade TradeType.buy btcAt50000 1 richPortfolio)).holdings.map
      (fun h => (h.quantity, h.averageBuyPrice, h.totalInvested)))
      = [(2, 55055, 110110)] := by
  norm_num [executeTrade, buyUpdateHoldings, calculatePortfolioValue,
    richPortfolio, btcAt50000, btcAt60000, TRADING_FEE_PERCENTAGE]

-- ==================== C5 ====================

/-- C5: a partial sell (0 < q < held quantity, remainder above the 1e-8
removal threshold) of the first-listed holding of the asset subtracts
exactly `totalInvested * (q / oldQuantity)` from `totalInvested`, leaves
`averageBuyPrice` (and the identity and `currentPrice` fields) unchanged,
and updates only the quantity, invested and valuation fields; later
holdings are untouched. -/
theorem executeTrade_sell_frame
    (p : Portfolio) (h : Holding) (rest : List Holding) (a : Asset) (q : ℚ)
    (hh : p.holdings = h :: rest)
    (hmatch : h.asset = a.id)
    (h0 : 0 < q) (hlt : q < h.quantity)
    (hthr : 1 / 100000000 < h.quantity - q) :
    (executeTrade TradeType.sell a q p).holdings =
      { h with
          quantity := h.quantity - q
          totalInvested := h.totalInvested - h.totalInvested * (q / h.quantity)
          currentValue := (h.quantity - q) * a.current_price
          pnl := (h.quantity - q) * a.current_price
            - (h.totalInvested - h.totalInvested * (q / h.quantity))
          pnlPercentage :=
            ((h.quantity - q) * a.current_price
                - (h.totalInvested - h.totalInvested * (q / h.quantity)))
              / (h.totalInvested - h.totalInvested * (q / h.quantity)) * 100 }
        :: rest := by
  simp [executeTrade, calculatePortfolioValue, sellUpdateHoldings, hh, hmatch,
    not_le.mpr hthr]
  linarith

/-- Witness for C5: selling 1 of 2 held units. -/
theorem executeTrade_sell_frame_witness :
    (executeTrade TradeType.sell btcAt30 1 samplePortfolio).holdings =
      { sampleHolding with
          quantity := sampleHolding.quantity - 1
          totalInvested := sampleHolding.totalInvested
            - sampleHolding.totalInvested * (1 / sampleHolding.quantity)
          currentValue := (sampleHolding.quantity - 1) * btcAt30.current_price
          pnl := (sampleHolding.quantity - 1) * btcAt30.current_price
            - (sampleHolding.totalInvested
                - sampleHolding.totalInvested * (1 / sampleHolding.quantity))
          pnlPercentage :=
            ((sampleHolding.quantity - 1) * btcAt30.current_price
                - (sampleHolding.totalInvested
                    - sampleHolding.totalInvested * (1 / sampleHolding.quantity)))
              / (sampleHolding.totalInvested
                  - sampleHolding.totalInvested * (1 / sampleHolding.quantity)) * 100 }
        :: [] :=
  executeTrade_sell_frame samplePortfolio sampleHolding [] btcAt30 1 rfl rfl
    (by norm_num) (by norm_num [sampleHolding]) (by norm_num [sampleHolding])

theorem buyUpdateHoldings_inv (a : Asset) (q netTotal : ℚ)
    (hq : 0 < q) (hp : 0 < a.current_price)
    (hnet : netTotal
      = q * a.current_price + q * a.current_price * TRADING_FEE_PERCENTAGE / 100) :
    ∀ hs : List Holding, (∀ h ∈ hs, HoldingInv h) →
      ∀ h ∈ buyUpdateHoldings a q a.current_price netTotal hs, HoldingInv h := by
  have hqp : 0 < q * a.current_price := mul_pos hq hp
  have hnet0 : 0 < netTotal := by
    rw [hnet]; unfold TRADING_FEE_PERCENTAGE; nlinarith
  intro hs
  induction hs with
  | nil =>
    intro _ h hmem
    simp only [buyUpdateHoldings, List.mem_singleton] at hmem
    subst hmem
    refine ⟨hq, hnet0.le, ?_, ?_⟩ <;>
      simp only [hnet] <;> unfold TRADING_FEE_PERCENTAGE <;> nlinarith
  | cons existing rest ih =>
    intro hinv h hmem
    by_cases hid : existing.asset = a.id
    · simp only [buyUpdateHoldings, if_pos hid, List.mem_cons] at hmem
      rcases hmem with hupd | htail
      · obtain ⟨hQ, hTI, _, _⟩ := hinv existing (by simp)
        subst hupd
        have hnQ : 0 < existing.quantity + q := by linarith
        have hnTI : 0 ≤ existing.totalInvested + netTotal := by linarith
        refine ⟨hnQ, hnTI, ?_, ?_⟩
        · simp only
          rw [div_mul_cancel₀ _ (ne_of_gt hnQ)]
        · simp only
          rw [div_mul_cancel₀ _ (ne_of_gt hnQ)]
          unfold TRADING_FEE_PERCENTAGE
          nlinarith
      · exact hinv h (by simp [htail])
    · simp only [buyUpdateHoldings, if_neg hid, List.mem_cons] at hmem
      rcases hmem with hhead | htail
      · exact hhead ▸ hinv existing (by simp)
      · exact ih (fun x hx => hinv x (by simp [hx])) h htail

theorem sellUpdateHoldings_inv (a : Asset) (q price : ℚ) (hq : 0 < q) :
    ∀ hs : List Holding, (∀ h ∈ hs, HoldingInv h) →
      ∀ h ∈ sellUpdateHoldings a q price hs, HoldingInv h := by
  intro hs
  induction hs with
  | nil => intro _ h hmem; simp [sellUpdateHoldings] at hmem
  | cons existing rest ih =>
    intro hinv h hmem
    by_cases hid : existing.asset = a.id
    · by_cases hrem : existing.quantity - q ≤ 1 / 100000000
      · simp only [sellUpdateHoldings, if_pos hid, if_pos hrem] at hmem
        exact hinv h (by simp [hmem])
      · simp only [sellUpdateHoldings, if_pos hid, if_neg hrem,
          List.mem_cons] at hmem
        rcases hmem with hupd | htail
        · obtain ⟨hQ, hTI, hlow, hupp⟩ := hinv existing (by simp)
          subst hupd
          have hnQ : 0 < existing.quantity - q := by
            push_neg at hrem; linarith
          have hQq0 : 0 ≤ existing.quantity - q := hnQ.le
          have hkey : existing.totalInvested
              - existing.totalInvested * (q / existing.quantity)
              = existing.totalInvested * (existing.quantity - q)
                  / existing.quantity := by
            field_simp
            ring
          refine ⟨hnQ, ?_, ?_, ?_⟩
          · simp only [hkey]
            exact div_nonneg (mul_nonneg hTI hQq0) hQ.le
          · simp only [hkey]
            rw [le_div_iff hQ]
            nlinarith [mul_le_mul_of_nonneg_right hlow hQq0]
          · simp only [hkey]
            rw [div_le_iff hQ]
            nlinarith [mul_le_mul_of_nonneg_right hupp hQq0]
        · exact hinv h (by simp [htail])
    · simp only [sellUpdateHoldings, if_neg hid, List.mem_cons] at hmem
      rcases hmem with hhead | htail
      · exact hhead ▸ hinv existing (by simp)
      · exact ih (fun x hx => hinv x (by simp [hx])) h htail

/-- One `executeTrade` step preserves the cost-basis invariant. -/
theorem executeTrade_inv (type : TradeType) (a : Asset) (q : ℚ) (p : Portfolio)
    (hq : 0 < q) (hp : 0 < a.current_price)
    (hinv : ∀ h ∈ p.holdings, HoldingInv h) :
    ∀ h ∈ (executeTrade type a q p).holdings, HoldingInv h := by
  cases type with
  | buy =>
    intro h hmem
    simp only [executeTrade, calculatePortfolioValue] at hmem
    exact buyUpdateHoldings_inv a q _ hq hp (by ring) p.holdings hinv h hmem
  | sell =>
    intro h hmem
    simp only [executeTrade, calculatePortfolioValue] at hmem
    exact sellUpdateHoldings_inv a q _ hq p.holdings hinv h hmem

theorem executeAll_inv (trades : List (TradeType × Asset × ℚ)) (p : Portfolio)
    (hp0 : ∀ h ∈ p.holdings, HoldingInv h)
    (htr : ∀ t ∈ trades, 0 < t.2.2 ∧ 0 < t.2.1.current_price) :
    ∀ h ∈ (executeAll trades p).holdings, HoldingInv h := by
  induction trades generalizing p with
  | nil => exact hp0
  | cons t rest ih =>
    have hstep := executeTrade_inv t.1 t.2.1 t.2.2 p
      (htr t (by simp)).1 (htr t (by simp)).2 hp0
    simpa [executeAll] using
      ih (executeTrade t.1 t.2.1 t.2.2 p) hstep
        (fun s hs => htr s (by simp [hs]))

/-- C4 amended: after any sequence of buys and sells (positive
quantities and prices) starting from holdings satisfying `HoldingInv`,
every holding has positive quantity and satisfies
`averageBuyPrice ≤ totalInvested / quantity ≤ averageBuyPrice * (1 + feeRate)`:
the average equals the invested-per-unit figure only up to the 0.1% buy
fee (a freshly created holding sits at the upper bound; a repeat buy
restores exact equality, which sells preserve). -/
theorem executeAll_costBasis_invariant
    (trades : List (TradeType × Asset × ℚ)) (p : Portfolio)
    (hp0 : ∀ h ∈ p.holdings, HoldingInv h)
    (htr : ∀ t ∈ trades, 0 < t.2.2 ∧ 0 < t.2.1.current_price) :
    ∀ h ∈ (executeAll trades p).holdings,
      0 < h.quantity ∧
        h.averageBuyPrice ≤ h.totalInvested / h.quantity ∧
        h.totalInvested / h.quantity
          ≤ h.averageBuyPrice * (1 + TRADING_FEE_PERCENTAGE / 100) := by
  intro h hmem
  obtain ⟨hQ, _, hlow, hupp⟩ := executeAll_inv trades p hp0 htr h hmem
  refine ⟨hQ, ?_, ?_⟩
  · rw [le_div_iff hQ]; exact hlow
  · rw [div_le_iff hQ]; nlinarith

/-- C4 counterexample: one buy of 1 unit at 50000 from a fresh portfolio
creates a holding with `averageBuyPrice = 50000` but
`totalInvested / quantity = 50050`: the claimed approximate identity is
off by the whole 0.1% fee (an exact gap of 50), not by floating-point
rounding. -/
theorem spot_fresh_holding_average_gap :
    ((executeTrade TradeType.buy btcAt50000 1 emptyPortfolio).holdings.map
        (fun h => (h.quantity, h.averageBuyPrice, h.totalInvested)))
      = [(1, 50000, 50050)] ∧
      (50050 : ℚ) / 1 - 50000 = 50 := by
  constructor
  · norm_num [executeTrade, buyUpdateHoldings, calculatePortfolioValue,
      emptyPortfolio, btcAt50000, TRADING_FEE_PERCENTAGE]
  · norm_num

/-- Witness for C4 on the concrete one-buy sequence. -/
theorem executeAll_costBasis_invariant_witness :
    0 < freshHolding.quantity ∧
      freshHolding.averageBuyPrice
        ≤ freshHolding.totalInvested / freshHolding.quantity ∧
      freshHolding.totalInvested / freshHolding.quantity
        ≤ freshHolding.averageBuyPrice * (1 + TRADING_FEE_PERCENTAGE / 100) :=
  executeAll_costBasis_invariant [(TradeType.buy, btcAt50000, 1)] emptyPortfolio
    (by simp [emptyPortfolio])
    (by intro t ht
        simp only [List.mem_singleton] at ht
        subst ht
        exact ⟨by norm_num, by norm_num [btcAt50000]⟩)
    freshHolding
    (by norm_num [executeAll, executeTrade, buyUpdateHoldings,
      calculatePortfolioValue, emptyPortfolio, btcAt50000,
      TRADING_FEE_PERCENTAGE, freshHolding])

-- ==================== C10 ====================

/-- Selling an asset with no matching holding leaves the holdings list
unchanged. -/
theorem sellUpdateHoldings_no_match (a : Asset) (q price : ℚ) :
    ∀ hs : List Holding, (∀ h ∈ hs, h.asset ≠ a.id) →
      sellUpdateHoldings a q price hs = hs := by
  intro hs
  induction hs with
  | nil => intro _; rfl
  | cons x rest ih =>
    intro hno
    have hx : ¬ x.asset = a.id := hno x (by simp)
    simp only [sellUpdateHoldings, if_neg hx]
    rw [ih (fun h hmem => hno h (by simp [hmem]))]

/-- C10: `executeTrade` does not validate.  A sell of `q > 0` units of an
asset the portfolio does not hold — an input `validateTrade` rejects —
still credits the balance with `q * price * (1 - 0.001)`, leaves the
holdings unchanged, and strictly increases the recomputed portfolio
value by that amount. -/
theorem executeTrade_sell_without_holding
    (a : Asset) (q : ℚ) (p : Portfolio)
    (hq : 0 < q) (hp : 0 < a.current_price)
    (hnone : ∀ h ∈ p.holdings, h.asset ≠ a.id) :
    (validateTrade TradeType.sell a q a.current_price p).valid = false ∧
      (executeTrade TradeType.sell a q p).balance
        = p.balance + q * a.current_price * (1 - 1/1000) ∧
      (executeTrade TradeType.sell a q p).holdings = p.holdings ∧
      (executeTrade TradeType.sell a q p).totalValue
        = (calculatePortfolioValue p.balance p.holdings).totalValue
            + q * a.current_price * (1 - 1/1000) ∧
      (calculatePortfolioValue p.balance p.holdings).totalValue
        < (executeTrade TradeType.sell a q p).totalValue := by
  have hfind : p.holdings.find? (fun h => h.asset == a.id) = none := by
    rw [List.find?_eq_none]
    intro x hx
    simpa using hnone x hx
  have hhold : sellUpdateHoldings a q a.current_price p.holdings = p.holdings :=
    sellUpdateHoldings_no_match a q a.current_price p.holdings hnone
  have hnet : q * a.current_price - q * a.current_price * TRADING_FEE_PERCENTAGE / 100
      = q * a.current_price * (1 - 1/1000) := by
    unfold TRADING_FEE_PERCENTAGE; ring
  have hpos : 0 < q * a.current_price * (1 - 1/1000) := by positivity
  refine ⟨?_, ?_, ?_, ?_, ?_⟩
  · simp [validateTrade, hfind, not_le.mpr hq, not_le.mpr hp]
  · simp [executeTrade, calculatePortfolioValue, hnet]
  · simp [executeTrade, calculatePortfolioValue, hhold]
  · simp only [executeTrade, calculatePortfolioValue, hhold, hnet]
    ring
  · simp only [executeTrade, calculatePortfolioValue, hhold, hnet]
    linarith

/-- Witness for C10: selling 1 BTC from the fresh (empty) portfolio. -/
theorem executeTrade_sell_without_holding_witness :
    (validateTrade TradeType.sell btcAt50000 1 btcAt50000.current_price
        emptyPortfolio).valid = false ∧
      (executeTrade TradeType.sell btcAt50000 1 emptyPortfolio).balance
        = emptyPortfolio.balance + 1 * btcAt50000.current_price * (1 - 1/1000) ∧
      (executeTrade TradeType.sell btcAt50000 1 emptyPortfolio).holdings
        = emptyPortfolio.holdings ∧
      (executeTrade TradeType.sell btcAt50000 1 emptyPortfolio).totalValue
        = (calculatePortfolioValue emptyPortfolio.balance
              emptyPortfolio.holdings).totalValue
            + 1 * btcAt50000.current_price * (1 - 1/1000) ∧
      (calculatePortfolioValue emptyPortfolio.balance
          emptyPortfolio.holdings).totalValue
        < (executeTrade TradeType.sell btcAt50000 1 emptyPortfolio).totalValue :=
  executeTrade_sell_without_holding btcAt50000 1 emptyPortfolio
    (by norm_num) (by norm_num [btcAt50000])
    (by simp [emptyPortfolio])

/-- C6 counterexample: the claim requires a LONG stop-loss to be above
the liquidation price, yet `validateFuturesOrder` accepts a stop of
40000 against a liquidation price of 45500 (at entry 50000, leverage
10): the result is `valid = true`, not a failure. -/
theorem validateFuturesOrder_stop_below_liquidation_accepted :
    (validateFuturesOrder fdStopBelowLiquidation btcAt50000 1000).valid = true ∧
      calculateLiquidationPrice PositionSide.LONG 50000 10 = 45500 ∧
      (40000 : ℚ) < 45500 := by
  have hns : PositionSide.LONG ≠ PositionSide.SHORT := by simp
  refine ⟨?_, ?_, by norm_num⟩
  · norm_num [validateFuturesOrder, validateFuturesTakeProfit,
      futuresValidResult, fdStopBelowLiquidation, btcAt50000,
      calculateLiquidationPrice, MAINTENANCE_MARGIN_RATE,
      MIN_MARGIN, MIN_LEVERAGE, MAX_LEVERAGE, hns]
  · norm_num [calculateLiquidationPrice, MAINTENANCE_MARGIN_RATE]

/-- C6 amended: `validateFuturesOrder` returns a structured result, with
`valid = true` exactly when the margin is at least 10 and within the
balance, the leverage lies in [1, 100], any stop-loss is strictly below
entry for LONG / strictly above entry for SHORT, and any take-profit is
strictly above entry for LONG / strictly below for SHORT.  A stop-loss
beyond the liquidation price does not fail validation (it can at most
add a warning). -/
theorem validateFuturesOrder_valid_iff
    (fd : FuturesFormData) (asset : Asset) (availableBalance : ℚ) :
    (validateFuturesOrder fd asset availableBalance).valid = true ↔
      (MIN_MARGIN ≤ fd.margin ∧ fd.margin ≤ availableBalance ∧
        MIN_LEVERAGE ≤ fd.leverage ∧ fd.leverage ≤ MAX_LEVERAGE ∧
        (∀ sl ∈ fd.stopLoss,
          (fd.side = PositionSide.LONG → sl < asset.current_price) ∧
          (fd.side = PositionSide.SHORT → asset.current_price < sl)) ∧
        (∀ tp ∈ fd.takeProfit,
          (fd.side = PositionSide.LONG → asset.current_price < tp) ∧
          (fd.side = PositionSide.SHORT → tp < asset.current_price))) := by
  have hTP : ∀ (liq : ℚ) (w : List String),
      (validateFuturesTakeProfit fd asset liq w).valid = true ↔
        ∀ tp ∈ fd.takeProfit,
          (fd.side = PositionSide.LONG → asset.current_price < tp) ∧
          (fd.side = PositionSide.SHORT → tp < asset.current_price) := by
    intro liq w
    rcases htp : fd.takeProfit with _ | tp
    · simp [validateFuturesTakeProfit, htp, futuresValidResult]
    · cases hside : fd.side with
      | LONG =>
        by_cases h : tp ≤ asset.current_price <;>
          simp [validateFuturesTakeProfit, htp, hside, h, futuresValidResult] <;>
            linarith
      | SHORT =>
        by_cases h : asset.current_price ≤ tp <;>
          simp [validateFuturesTakeProfit, htp, hside, h, futuresValidResult] <;>
            linarith
  by_cases h1 : fd.margin < MIN_MARGIN
  · simp only [validateFuturesOrder, if_pos h1]
    simp only [Bool.false_eq_true, false_iff]
    rintro ⟨ha, -⟩
    exact absurd ha (not_le.mpr h1)
  by_cases h2 : fd.margin > availableBalance
  · simp only [validateFuturesOrder, if_neg h1, if_pos h2]
    simp only [Bool.false_eq_true, false_iff]
    rintro ⟨-, hb, -⟩
    exact absurd hb (not_le.mpr h2)
  by_cases h3 : fd.leverage < MIN_LEVERAGE ∨ fd.leverage > MAX_LEVERAGE
  · simp only [validateFuturesOrder, if_neg h1, if_neg h2, if_pos h3]
    simp only [Bool.false_eq_true, false_iff]
    rintro ⟨-, -, hc, hd, -⟩
    rcases h3 with h3 | h3 <;> linarith
  have hm1 : MIN_MARGIN ≤ fd.margin := not_lt.mp h1
  have hm2 : fd.margin ≤ availableBalance := not_lt.mp h2
  have hl12 : MIN_LEVERAGE ≤ fd.leverage ∧ fd.leverage ≤ MAX_LEVERAGE := by
    push_neg at h3; exact h3
  rcases hsl : fd.stopLoss with _ | sl
  · simp only [validateFuturesOrder, if_neg h1, if_neg h2, if_neg h3, hsl]
    rw [hTP]
    constructor
    · intro htp'
      exact ⟨hm1, hm2, hl12.1, hl12.2, by simp, htp'⟩
    · rintro ⟨-, -, -, -, -, htp'⟩
      exact htp'
  · by_cases hL : fd.side = PositionSide.LONG ∧ sl ≥ asset.current_price
    · simp only [validateFuturesOrder, if_neg h1, if_neg h2, if_neg h3, hsl,
        if_pos hL]
      simp only [Bool.false_eq_true, false_iff]
      rintro ⟨-, -, -, -, hslc, -⟩
      have := (hslc sl (by simp)).1 hL.1
      linarith [hL.2]
    · by_cases hS : fd.side = PositionSide.SHORT ∧ sl ≤ asset.current_price
      · simp only [validateFuturesOrder, if_neg h1, if_neg h2, if_neg h3, hsl,
          if_neg hL, if_pos hS]
        simp only [Bool.false_eq_true, false_iff]
        rintro ⟨-, -, -, -, hslc, -⟩
        have := (hslc sl (by simp)).2 hS.1
        linarith [hS.2]
      · simp only [validateFuturesOrder, if_neg h1, if_neg h2, if_neg h3, hsl,
          if_neg hL, if_neg hS]
        rw [hTP]
        have hslOK : ∀ x ∈ (some sl : Option ℚ),
            (fd.side = PositionSide.LONG → x < asset.current_price) ∧
            (fd.side = PositionSide.SHORT → asset.current_price < x) := by
          intro x hx
          simp only [Option.mem_def, Option.some.injEq] at hx
          subst hx
          constructor
          · intro hside
            by_contra hno
            exact hL ⟨hside, by linarith⟩
          · intro hside
            by_contra hno
            exact hS ⟨hside, by linarith⟩
        constructor
        · intro htp'
          exact ⟨hm1, hm2, hl12.1, hl12.2, hslOK, htp'⟩
        · rintro ⟨-, -, -, -, -, htp'⟩
          exact htp'

-- ==================== C7 ====================

/-- C7: the four scenario probabilities of every produced signal are
integers summing to exactly 100 — for the insufficient-data signal
(33 + 33 + 17 + 17) and for every candle/volume input and indicator
reading after the ADX adjustments, since the consolidation bucket is
defined as the renormalisation remainder `100 - bullish - bearish -
reversal`. -/
theorem advancedProbabilities_sum_100 :
    (∀ (candleData : List Candle) (volumeData : List ℚ)
        (r : IndicatorReadings),
      (generateAdvancedTradingSignals candleData volumeData r).probabilities.bullishContinuation
        + (generateAdvancedTradingSignals candleData volumeData r).probabilities.bearishContinuation
        + (generateAdvancedTradingSignals candleData volumeData r).probabilities.reversal
        + (generateAdvancedTradingSignals candleData volumeData r).probabilities.consolidation
        = 100) ∧
      insufficientDataSignal.probabilities.bullishContinuation
        + insufficientDataSignal.probabilities.bearishContinuation
        + insufficientDataSignal.probabilities.reversal
        + insufficientDataSignal.probabilities.consolidation = 100 ∧
      ∀ (t : SignalType) (adxR : ADXReading),
        (advancedProbabilities t adxR).consolidation
          = 100 - (advancedProbabilities t adxR).bullishContinuation
              - (advancedProbabilities t adxR).bearishContinuation
              - (advancedProbabilities t adxR).reversal := by
  refine ⟨?_, by norm_num [insufficientDataSignal], fun t adxR => rfl⟩
  intro candleData volumeData r
  by_cases h : candleData.length < 50
  · simp [generateAdvancedTradingSignals, h, insufficientDataSignal]
  · simp only [generateAdvancedTradingSignals, if_neg h, advancedProbabilities]
    ring

-- ==================== C9 ====================

/-- C9: on any candle sequence shorter than 20 candles (hence shorter
than the 50-candle gate) the aggregator returns the fixed
insufficient-data signal — type neutral, confidence 0, explicit
insufficient-data recommendation — instead of failing. -/
theorem generateAdvancedTradingSignals_short_input
    (candleData : List Candle) (volumeData : List ℚ) (r : IndicatorReadings)
    (hlen : candleData.length < 20) :
    generateAdvancedTradingSignals candleData volumeData r
        = insufficientDataSignal ∧
      (generateAdvancedTradingSignals candleData volumeData r).type
        = SignalType.neutral ∧
      (generateAdvancedTradingSignals candleData volumeData r).confidence = 0 ∧
      (generateAdvancedTradingSignals candleData volumeData r).recommendation
        = "Datos insuficientes para análisis completo. Se requieren al menos 50 velas." := by
  have h50 : candleData.length < 50 := by omega
  refine ⟨?_, ?_, ?_, ?_⟩ <;>
    simp [generateAdvancedTradingSignals, h50, insufficientDataSignal]

/-- Witness for C9: the empty candle sequence. -/
theorem generateAdvancedTradingSignals_short_input_witness :
    generateAdvancedTradingSignals [] [] sampleReadings
        = insufficientDataSignal ∧
      (generateAdvancedTradingSignals [] [] sampleReadings).type
        = SignalType.neutral ∧
      (generateAdvancedTradingSignals [] [] sampleReadings).confidence = 0 ∧
      (generateAdvancedTradingSignals [] [] sampleReadings).recommendation
        = "Datos insuficientes para análisis completo. Se requieren al menos 50 velas." :=
  generateAdvancedTradingSignals_short_input [] [] sampleReadings (by simp)

end TradeDojo
